import Mathlib

/-!
Shallow embedding of `src/gluonts/model/seq2seq/_mq_dnn_estimator.py`:
the constructors of `MQCNNEstimator` and `MQRNNEstimator` (hyperparameter
validation, default population, RNG seeding, and assembly of the encoder,
decoder and quantile-output architecture objects), the class-definition-time
name resolution of the `MQCNNEstimator.__init__` signature, and
`MQCNNEstimator.derive_auto_fields`.

Quantile levels are Python floats in the source; they are modelled as `Rat`,
which is exact for every literal and comparison the module performs
(`0 <= d <= 1` on decimal literals).
-/

set_option autoImplicit false

namespace MQDNN

/-- An error escaping an estimator constructor. `configurationError` models
the `AssertionError` raised by a failed `assert` in `__init__` (the spec's
`ConfigurationError`), carrying the assert's message; `nameError` models a
Python `NameError` for an unresolvable name; `indexError` models a Python
`IndexError` from an out-of-range list index such as `[][-1]`. -/
inductive InitError where
  | nameError (name : String)
  | configurationError (msg : String)
  | indexError
deriving DecidableEq

/-- Observable side effects of a constructor run, in program order:
`np.random.seed(s)`, `mx.random.seed(s)`, and the construction of each
architecture object. -/
inductive Event where
  | seedNumpy (s : Int)
  | seedMxnet (s : Int)
  | buildEncoder
  | buildDecoder
  | buildQuantileOutput
deriving DecidableEq

deriving instance DecidableEq for Except

/-- A Python `assert cond, msg`: continues iff `cond` holds, otherwise raises
with message `msg`. -/
def pyAssert (b : Bool) (msg : String) : Except InitError Unit :=
  if b then Except.ok () else Except.error (InitError.configurationError msg)

/-- `seq is None or all(p(d) for d in seq)` — the shape of every element-wise
validation in the module. -/
def noneOrAll {α : Type} (o : Option (List α)) (p : α → Bool) : Bool :=
  match o with
  | none => true
  | some l => l.all p

/-- Python `l[-1]`: the last element, or `IndexError` when `l` is empty. -/
def pyLast (l : List Int) : Except InitError Int :=
  match l.getLast? with
  | some x => Except.ok x
  | none => Except.error InitError.indexError

/-- Arguments of `HierarchicalCausalConv1DEncoder(...)` as built at lines
184–192 (the encoder object itself is external; only its configuration is
observable here). `pfx` is the `prefix` keyword argument. -/
structure HierarchicalCausalConv1DEncoder where
  dilation_seq : List Int
  kernel_size_seq : List Int
  channels_seq : List Int
  use_residual : Bool
  use_static_feat : Bool
  use_dynamic_feat : Bool
  pfx : String
deriving DecidableEq

/-- Arguments of `RNNEncoder(...)` as built at lines 282–290. `pfx` is the
`prefix` keyword argument. -/
structure RNNEncoder where
  mode : String
  hidden_size : Int
  num_layers : Int
  bidirectional : Bool
  pfx : String
  use_static_feat : Bool
  use_dynamic_feat : Bool
deriving DecidableEq

/-- Arguments of `ForkingMLPDecoder(...)` as built at lines 194–199 and
292–297. `pfx` is the `prefix` keyword argument. -/
structure ForkingMLPDecoder where
  dec_len : Int
  final_dim : Int
  hidden_dimension_sequence : List Int
  pfx : String
deriving DecidableEq

/-- Argument of `QuantileOutput(...)` as built at lines 201 and 299. -/
structure QuantileOutput where
  quantiles : List Rat
deriving DecidableEq

/-- The constructor arguments of `MQCNNEstimator.__init__` (lines 106–129)
that the body reads, with the signature's default values. The opaque external
handles `distr_output` and `trainer` are omitted: the body only stores them
unchanged, and their default expressions are covered by the name-resolution
model below. -/
structure MQCNNArgs where
  freq : String
  prediction_length : Int
  sampling : Bool := true
  context_length : Option Int := none
  use_feat_dynamic_real : Bool := false
  use_feat_static_cat : Bool := false
  cardinality : Option (List Int) := none
  embedding_dimension : Option (List Int) := none
  add_time_feature : Bool := false
  add_age_feature : Bool := false
  enable_decoder_dynamic_feature : Bool := false
  seed : Option Int := none
  decoder_mlp_dim_seq : Option (List Int) := none
  channels_seq : Option (List Int) := none
  dilation_seq : Option (List Int) := none
  kernel_size_seq : Option (List Int) := none
  use_residual : Bool := true
  quantiles : Option (List Rat) := none
  scaling : Bool := false

/-- The normalized configuration a successful `MQCNNEstimator.__init__`
leaves behind: the populated `self.*` sequences and the three architecture
objects handed to the base estimator. -/
structure MQCNNConfig where
  decoder_mlp_dim_seq : List Int
  channels_seq : List Int
  dilation_seq : List Int
  kernel_size_seq : List Int
  quantiles : List Rat
  encoder : HierarchicalCausalConv1DEncoder
  decoder : ForkingMLPDecoder
  quantile_output : QuantileOutput
  sampling : Bool
deriving DecidableEq

/-- The `assert` block of `MQCNNEstimator.__init__` (lines 131–149), in
source order, with the source's exact messages. -/
def mqcnnPreChecks (a : MQCNNArgs) : Except InitError Unit := do
  pyAssert (decide (0 < a.prediction_length))
    ("Invalid prediction length: " ++ toString a.prediction_length ++ ".")
  pyAssert (noneOrAll a.decoder_mlp_dim_seq (fun d => decide (0 < d)))
    "Elements of `mlp_hidden_dimension_seq` should be > 0"
  pyAssert (noneOrAll a.channels_seq (fun d => decide (0 < d)))
    "Elements of `channels_seq` should be > 0"
  pyAssert (noneOrAll a.dilation_seq (fun d => decide (0 < d)))
    "Elements of `dilation_seq` should be > 0"
  pyAssert (noneOrAll a.kernel_size_seq (fun d => decide (1 < d)))
    "Elements of `kernel_size_seq` should be > 0"
  pyAssert (noneOrAll a.quantiles (fun d => decide (0 ≤ d ∧ d ≤ 1)))
    "Elements of `quantiles` should be >= 0 and <= 1"

/-- The body of `MQCNNEstimator.__init__` (lines 131–221): element-wise
asserts, default population (lines 151–167), the CNN-sequence length assert
(lines 169–176), the `if seed:` RNG seeding (lines 178–181, Python
truthiness: `None` and `0` are falsy), then encoder, decoder and
quantile-output construction. Returns the events that happened in order,
and either the normalized configuration or the error raised. -/
def mqcnnInit (a : MQCNNArgs) : List Event × Except InitError MQCNNConfig :=
  match mqcnnPreChecks a with
  | Except.error e => ([], Except.error e)
  | Except.ok _ =>
    let decoder_mlp_dim_seq := a.decoder_mlp_dim_seq.getD [30]
    let channels_seq := a.channels_seq.getD [30, 30, 30]
    let dilation_seq := a.dilation_seq.getD [1, 3, 5]
    let kernel_size_seq := a.kernel_size_seq.getD [7, 3, 3]
    let quantiles :=
      a.quantiles.getD [0.1, 0.2, 0.3, 0.4, 0.5, 0.6, 0.7, 0.8, 0.9]
    if channels_seq.length = dilation_seq.length ∧
        dilation_seq.length = kernel_size_seq.length then
      let seedEvents : List Event :=
        match a.seed with
        | none => []
        | some s =>
          if s = 0 then []
          else [Event.seedNumpy s, Event.seedMxnet s]
      let encoder : HierarchicalCausalConv1DEncoder :=
        { dilation_seq := dilation_seq
          kernel_size_seq := kernel_size_seq
          channels_seq := channels_seq
          use_residual := a.use_residual
          use_static_feat := true
          use_dynamic_feat := true
          pfx := "encoder_" }
      match pyLast decoder_mlp_dim_seq with
      | Except.error e => (seedEvents ++ [Event.buildEncoder], Except.error e)
      | Except.ok final_dim =>
        let decoder : ForkingMLPDecoder :=
          { dec_len := a.prediction_length
            final_dim := final_dim
            hidden_dimension_sequence := decoder_mlp_dim_seq.dropLast
            pfx := "decoder_" }
        (seedEvents ++
            [Event.buildEncoder, Event.buildDecoder, Event.buildQuantileOutput],
          Except.ok
            { decoder_mlp_dim_seq := decoder_mlp_dim_seq
              channels_seq := channels_seq
              dilation_seq := dilation_seq
              kernel_size_seq := kernel_size_seq
              quantiles := quantiles
              encoder := encoder
              decoder := decoder
              quantile_output := { quantiles := quantiles }
              sampling := a.sampling })
    else
      ([],
        Except.error (InitError.configurationError
          ("mismatch CNN configurations: " ++ toString channels_seq.length ++
            " vs. " ++ toString dilation_seq.length ++ " vs. " ++
            toString kernel_size_seq.length)))

/-- `MQCNNEstimator(freq, prediction_length)` with every optional argument
left at its default. -/
def mqcnnDefaults (freq : String) (prediction_length : Int) : MQCNNArgs :=
  { freq := freq, prediction_length := prediction_length }

/-- `true` iff the constructor run succeeded. -/
def isOkB {ε α : Type} : Except ε α → Bool
  | Except.ok _ => true
  | Except.error _ => false

/-- The constructor arguments of `MQRNNEstimator.__init__` (lines 250–259)
that the body reads, with the signature's default values. The opaque
external `trainer` handle is omitted (stored unchanged only). -/
structure MQRNNArgs where
  prediction_length : Int
  freq : String
  context_length : Option Int := none
  decoder_mlp_dim_seq : Option (List Int) := none
  quantiles : Option (List Rat) := none
  scaling : Bool := true

/-- The normalized configuration a successful `MQRNNEstimator.__init__`
leaves behind. -/
structure MQRNNConfig where
  decoder_mlp_dim_seq : List Int
  quantiles : List Rat
  encoder : RNNEncoder
  decoder : ForkingMLPDecoder
  quantile_output : QuantileOutput
deriving DecidableEq

/-- The `assert` block of `MQRNNEstimator.__init__` (lines 261–269), in
source order, with the source's exact messages. -/
def mqrnnPreChecks (a : MQRNNArgs) : Except InitError Unit := do
  pyAssert (decide (0 < a.prediction_length))
    ("Invalid prediction length: " ++ toString a.prediction_length ++ ".")
  pyAssert (noneOrAll a.decoder_mlp_dim_seq (fun d => decide (0 < d)))
    "Elements of `mlp_hidden_dimension_seq` should be > 0"
  pyAssert (noneOrAll a.quantiles (fun d => decide (0 ≤ d ∧ d ≤ 1)))
    "Elements of `quantiles` should be >= 0 and <= 1"

/-- The body of `MQRNNEstimator.__init__` (lines 261–310): asserts, default
population (lines 271–278), then the fixed bidirectional GRU encoder
(lines 282–290), decoder and quantile-output construction. -/
def mqrnnInit (a : MQRNNArgs) : List Event × Except InitError MQRNNConfig :=
  match mqrnnPreChecks a with
  | Except.error e => ([], Except.error e)
  | Except.ok _ =>
    let decoder_mlp_dim_seq := a.decoder_mlp_dim_seq.getD [30]
    let quantiles :=
      a.quantiles.getD [0.1, 0.2, 0.3, 0.4, 0.5, 0.6, 0.7, 0.8, 0.9]
    let encoder : RNNEncoder :=
      { mode := "gru"
        hidden_size := 50
        num_layers := 1
        bidirectional := true
        pfx := "encoder_"
        use_static_feat := true
        use_dynamic_feat := true }
    match pyLast decoder_mlp_dim_seq with
    | Except.error e => ([Event.buildEncoder], Except.error e)
    | Except.ok final_dim =>
      let decoder : ForkingMLPDecoder :=
        { dec_len := a.prediction_length
          final_dim := final_dim
          hidden_dimension_sequence := decoder_mlp_dim_seq.dropLast
          pfx := "decoder_" }
      ([Event.buildEncoder, Event.buildDecoder, Event.buildQuantileOutput],
        Except.ok
          { decoder_mlp_dim_seq := decoder_mlp_dim_seq
            quantiles := quantiles
            encoder := encoder
            decoder := decoder
            quantile_output := { quantiles := quantiles } })

/-- `MQRNNEstimator(prediction_length, freq)` with every optional argument
left at its default. -/
def mqrnnDefaults (freq : String) (prediction_length : Int) : MQRNNArgs :=
  { freq := freq, prediction_length := prediction_length }

/-!
Class-definition-time name resolution of `MQCNNEstimator.__init__`.

In Python the default-value expressions and the parameter annotations of a
`def` statement are evaluated when the `def` executes (at module import,
inside the `class` body), resolving free names against the module's global
namespace and the builtins. The module's import block (lines 14–37) binds
the names listed in `moduleScope`; `DistributionOutput` and `GaussianOutput`
(line 111) are bound nowhere in the module and are not builtins.
-/

/-- The names bound in the module namespace of `_mq_dnn_estimator.py` when
the `class MQCNNEstimator` body executes — one per import at lines 14–37 —
together with the Python builtins that the `__init__` signature mentions. -/
def moduleScope : List String :=
  ["logging", "multiprocessing", "List", "Optional", "mx", "np",
   "validated", "Dataset", "ListDataset", "calculate_dataset_statistics",
   "ForkingSeq2SeqEstimator", "ForkingMLPDecoder",
   "HierarchicalCausalConv1DEncoder", "RNNEncoder", "QuantileOutput",
   "Trainer", "str", "int", "bool", "None", "True", "False"]

/-- The free names evaluated when the `def __init__` statement of
`MQCNNEstimator` (lines 106–129) executes: first the names in its
default-value expressions, left to right (`GaussianOutput()` at line 111,
`Trainer()` at line 127), then the names in its parameter annotations
(`DistributionOutput` among them). -/
def mqcnnSignatureNames : List String :=
  ["GaussianOutput", "Trainer",
   "str", "int", "bool", "DistributionOutput", "Optional", "List", "Trainer"]

/-- Evaluates a list of names in order against a scope; the first name not
in scope raises `NameError`, as in Python. -/
def resolveNames (scope : List String) (names : List String) :
    Except InitError Unit :=
  match names.find? (fun n => !scope.contains n) with
  | some n => Except.error (InitError.nameError n)
  | none => Except.ok ()

/-- The full Python semantics of `MQCNNEstimator(...)`: the `def __init__`
statement must first evaluate (its defaults and annotations resolved
against the module scope) before the constructor body can run on the
arguments. -/
def mqcnnCall (a : MQCNNArgs) : List Event × Except InitError MQCNNConfig :=
  match resolveNames moduleScope mqcnnSignatureNames with
  | Except.error e => ([], Except.error e)
  | Except.ok _ => mqcnnInit a

/-!
`MQCNNEstimator.derive_auto_fields` (lines 223–240). The call
`calculate_dataset_statistics(train_iter)` is an external collaborator; the
statistics record it returns is taken as the input here. Its
`feat_static_cat` field holds, per static categorical feature, the set of
distinct values observed, and `num_feat_dynamic_real` the count of dynamic
real features. The informational log record (lines 233–238) has no effect
on the returned mapping and is not modelled.
-/

/-- The fields of the external dataset-statistics record that
`derive_auto_fields` reads, over an arbitrary type `α` of category values. -/
structure DatasetStatistics (α : Type) where
  num_feat_dynamic_real : Nat
  feat_static_cat : List (Finset α)

/-- The mapping returned by `derive_auto_fields` (lines 227–231). -/
structure AutoFields where
  use_feat_dynamic_real : Bool
  use_feat_static_cat : Bool
  cardinality : List Nat
deriving DecidableEq

/-- `MQCNNEstimator.derive_auto_fields`, lines 227–231:
`use_feat_dynamic_real = stats.num_feat_dynamic_real > 0`,
`use_feat_static_cat = bool(stats.feat_static_cat)` (list truthiness:
non-empty), `cardinality = [len(cats) for cats in stats.feat_static_cat]`. -/
def derive_auto_fields {α : Type} (stats : DatasetStatistics α) : AutoFields :=
  { use_feat_dynamic_real := decide (0 < stats.num_feat_dynamic_real)
    use_feat_static_cat := !stats.feat_static_cat.isEmpty
    cardinality := stats.feat_static_cat.map Finset.card }

/-- A `pyLast` error is always the `IndexError` of an empty list. -/
theorem pyLast_error {l : List Int} {e : InitError}
    (h : pyLast l = Except.error e) : e = InitError.indexError := by
  unfold pyLast at h
  rcases hg : l.getLast? with _ | x <;> rw [hg] at h <;> simp_all

/-- Every run of the `MQCNNEstimator` constructor body either performed no
events at all, or succeeded, or raised an `IndexError`. -/
theorem mqcnnInit_shape (a : MQCNNArgs) :
    (mqcnnInit a).1 = [] ∨ (∃ c, (mqcnnInit a).2 = Except.ok c) ∨
      (mqcnnInit a).2 = Except.error InitError.indexError := by
  unfold mqcnnInit
  split
  · left; rfl
  · dsimp only
    split
    · split
      · rename_i e heq
        right; right
        rw [pyLast_error heq]
      · right; left; exact ⟨_, rfl⟩
    · left; rfl

/-- Every run of the `MQRNNEstimator` constructor body either performed no
events at all, or succeeded, or raised an `IndexError`. -/
theorem mqrnnInit_shape (a : MQRNNArgs) :
    (mqrnnInit a).1 = [] ∨ (∃ c, (mqrnnInit a).2 = Except.ok c) ∨
      (mqrnnInit a).2 = Except.error InitError.indexError := by
  unfold mqrnnInit
  split
  · left; rfl
  · dsimp only
    split
    · rename_i e heq
      right; right
      rw [pyLast_error heq]
    · right; left; exact ⟨_, rfl⟩

/-- Claim C1: for every `prediction_length ≤ 0`, the constructor body of
either estimator fails with the configuration error naming the invalid
prediction length; for every `prediction_length > 0` with all other
arguments left at their defaults, construction succeeds. -/
theorem mq_prediction_length_gate (freq : String) (pl : Int) :
    (pl ≤ 0 →
      (mqcnnInit (mqcnnDefaults freq pl)).2 =
        Except.error (InitError.configurationError
          ("Invalid prediction length: " ++ toString pl ++ ".")) ∧
      (mqrnnInit (mqrnnDefaults freq pl)).2 =
        Except.error (InitError.configurationError
          ("Invalid prediction length: " ++ toString pl ++ "."))) ∧
    (0 < pl →
      isOkB (mqcnnInit (mqcnnDefaults freq pl)).2 = true ∧
      isOkB (mqrnnInit (mqrnnDefaults freq pl)).2 = true) := by
  constructor
  · intro h
    have hd : decide (0 < pl) = false := by simp [not_lt.mpr h]
    constructor <;>
      simp [mqcnnInit, mqrnnInit, mqcnnPreChecks, mqrnnPreChecks,
        mqcnnDefaults, mqrnnDefaults, pyAssert, hd, Except.bind, bind]
  · intro h
    have hd : decide (0 < pl) = true := decide_eq_true h
    constructor <;>
      simp [mqcnnInit, mqrnnInit, mqcnnPreChecks, mqrnnPreChecks,
        mqcnnDefaults, mqrnnDefaults, pyAssert, hd, Except.bind, bind,
        noneOrAll, pyLast, isOkB]

/-- Witness for C1 at `prediction_length = 0` (failure, both estimators) and
`prediction_length = 3` (success, both estimators). -/
theorem mq_prediction_length_gate_witness :
    ((mqcnnInit (mqcnnDefaults "D" 0)).2 =
        Except.error (InitError.configurationError
          ("Invalid prediction length: " ++ toString (0 : Int) ++ ".")) ∧
      (mqrnnInit (mqrnnDefaults "D" 0)).2 =
        Except.error (InitError.configurationError
          ("Invalid prediction length: " ++ toString (0 : Int) ++ "."))) ∧
    (isOkB (mqcnnInit (mqcnnDefaults "D" 3)).2 = true ∧
      isOkB (mqrnnInit (mqrnnDefaults "D" 3)).2 = true) :=
  ⟨(mq_prediction_length_gate "D" 0).1 (by decide),
   (mq_prediction_length_gate "D" 3).2 (by decide)⟩

/-- Claim C2: `DistributionOutput` and `GaussianOutput` are bound nowhere in
the module, so for every argument record, calling `MQCNNEstimator(...)`
fails with a `NameError` (raised when the `def __init__` statement evaluates
the default `GaussianOutput()`) before any validation runs and with no
observable event. -/
theorem mqcnn_name_resolution_failure :
    "DistributionOutput" ∉ moduleScope ∧ "GaussianOutput" ∉ moduleScope ∧
    ∀ a : MQCNNArgs, mqcnnCall a =
      ([], Except.error (InitError.nameError "GaussianOutput")) := by
  refine ⟨by decide, by decide, fun a => ?_⟩
  rfl

/-- Claim C3: with a positive prediction length and all other arguments at
their defaults, supplying a CNN hyperparameter triple of mismatched lengths
makes the constructor body fail, while a triple of equal lengths whose
channels and dilations are positive and whose kernel sizes exceed one makes
it succeed. -/
theorem mqcnn_cnn_triple_length_gate (freq : String) (pl : Int) (hpl : 0 < pl)
    (cs ds ks : List Int) :
    (¬ (cs.length = ds.length ∧ ds.length = ks.length) →
      isOkB (mqcnnInit { mqcnnDefaults freq pl with
        channels_seq := some cs, dilation_seq := some ds,
        kernel_size_seq := some ks }).2 = false) ∧
    ((cs.length = ds.length ∧ ds.length = ks.length) →
      (∀ d ∈ cs, 0 < d) → (∀ d ∈ ds, 0 < d) → (∀ d ∈ ks, 1 < d) →
      isOkB (mqcnnInit { mqcnnDefaults freq pl with
        channels_seq := some cs, dilation_seq := some ds,
        kernel_size_seq := some ks }).2 = true) := by
  have hd : decide (0 < pl) = true := decide_eq_true hpl
  constructor
  · intro hmm
    by_cases h1 : cs.all (fun d => decide (0 < d)) = true
    · by_cases h2 : ds.all (fun d => decide (0 < d)) = true
      · by_cases h3 : ks.all (fun d => decide (1 < d)) = true
        · simp [mqcnnInit, mqcnnPreChecks, mqcnnDefaults, pyAssert, hd,
            h1, h2, h3, noneOrAll, Except.bind, bind, isOkB, hmm]
        · simp [mqcnnInit, mqcnnPreChecks, mqcnnDefaults, pyAssert, hd,
            h1, h2, h3, noneOrAll, Except.bind, bind, isOkB]
      · simp [mqcnnInit, mqcnnPreChecks, mqcnnDefaults, pyAssert, hd,
          h1, h2, noneOrAll, Except.bind, bind, isOkB]
    · simp [mqcnnInit, mqcnnPreChecks, mqcnnDefaults, pyAssert, hd,
        h1, noneOrAll, Except.bind, bind, isOkB]
  · intro hlen hcs hds hks
    have h1 : cs.all (fun d => decide (0 < d)) = true := by
      simp only [List.all_eq_true, decide_eq_true_eq]; exact hcs
    have h2 : ds.all (fun d => decide (0 < d)) = true := by
      simp only [List.all_eq_true, decide_eq_true_eq]; exact hds
    have h3 : ks.all (fun d => decide (1 < d)) = true := by
      simp only [List.all_eq_true, decide_eq_true_eq]; exact hks
    simp [mqcnnInit, mqcnnPreChecks, mqcnnDefaults, pyAssert, hd,
      h1, h2, h3, noneOrAll, Except.bind, bind, isOkB, hlen, pyLast]

/-- Witness for C3: lengths 1/2/3 fail; an equal-length triple of
non-default values succeeds. -/
theorem mqcnn_cnn_triple_length_gate_witness :
    isOkB (mqcnnInit { mqcnnDefaults "D" 1 with
      channels_seq := some [30], dilation_seq := some [1, 3],
      kernel_size_seq := some [7, 3, 3] }).2 = false ∧
    isOkB (mqcnnInit { mqcnnDefaults "D" 1 with
      channels_seq := some [2, 9], dilation_seq := some [4, 1],
      kernel_size_seq := some [5, 2] }).2 = true :=
  ⟨(mqcnn_cnn_triple_length_gate "D" 1 (by decide) [30] [1, 3] [7, 3, 3]).1
      (by decide),
   (mqcnn_cnn_triple_length_gate "D" 1 (by decide) [2, 9] [4, 1] [5, 2]).2
      (by decide) (by decide) (by decide) (by decide)⟩

/-- Claim C4: the constructor body checks positivity of every element of
`channels_seq` and `dilation_seq` and requires every element of
`kernel_size_seq` to exceed one, failing with the message naming the
offending field; in particular `kernel_size_seq = [1, 3, 3]` fails with the
configuration error citing `kernel_size_seq`. -/
theorem mqcnn_elementwise_validation (freq : String) (pl : Int) (hpl : 0 < pl)
    (cs ds ks : List Int) :
    ((¬ ∀ d ∈ cs, 0 < d) →
      (mqcnnInit { mqcnnDefaults freq pl with channels_seq := some cs }).2 =
        Except.error (InitError.configurationError
          "Elements of `channels_seq` should be > 0")) ∧
    ((¬ ∀ d ∈ ds, 0 < d) →
      (mqcnnInit { mqcnnDefaults freq pl with dilation_seq := some ds }).2 =
        Except.error (InitError.configurationError
          "Elements of `dilation_seq` should be > 0")) ∧
    ((¬ ∀ d ∈ ks, 1 < d) →
      (mqcnnInit { mqcnnDefaults freq pl with kernel_size_seq := some ks }).2 =
        Except.error (InitError.configurationError
          "Elements of `kernel_size_seq` should be > 0")) ∧
    (mqcnnInit { mqcnnDefaults freq pl with
        kernel_size_seq := some [1, 3, 3] }).2 =
      Except.error (InitError.configurationError
        "Elements of `kernel_size_seq` should be > 0") := by
  have hd : decide (0 < pl) = true := decide_eq_true hpl
  refine ⟨fun h => ?_, fun h => ?_, fun h => ?_, ?_⟩
  · have h1 : cs.all (fun d => decide (0 < d)) = false := by
      rw [← Bool.not_eq_true]
      simpa [List.all_eq_true] using h
    simp [mqcnnInit, mqcnnPreChecks, mqcnnDefaults, pyAssert, hd, h1,
      noneOrAll, Except.bind, bind]
  · have h2 : ds.all (fun d => decide (0 < d)) = false := by
      rw [← Bool.not_eq_true]
      simpa [List.all_eq_true] using h
    simp [mqcnnInit, mqcnnPreChecks, mqcnnDefaults, pyAssert, hd, h2,
      noneOrAll, Except.bind, bind]
  · have h3 : ks.all (fun d => decide (1 < d)) = false := by
      rw [← Bool.not_eq_true]
      simpa [List.all_eq_true] using h
    simp [mqcnnInit, mqcnnPreChecks, mqcnnDefaults, pyAssert, hd, h3,
      noneOrAll, Except.bind, bind]
  · simp [mqcnnInit, mqcnnPreChecks, mqcnnDefaults, pyAssert, hd,
      noneOrAll, Except.bind, bind]

/-- Witness for C4 at `channels_seq = [0]`, `dilation_seq = [-1]`,
`kernel_size_seq = [1]` and the scenario `kernel_size_seq = [1, 3, 3]`. -/
theorem mqcnn_elementwise_validation_witness :
    (mqcnnInit { mqcnnDefaults "D" 1 with channels_seq := some [0] }).2 =
      Except.error (InitError.configurationError
        "Elements of `channels_seq` should be > 0") ∧
    (mqcnnInit { mqcnnDefaults "D" 1 with dilation_seq := some [-1] }).2 =
      Except.error (InitError.configurationError
        "Elements of `dilation_seq` should be > 0") ∧
    (mqcnnInit { mqcnnDefaults "D" 1 with kernel_size_seq := some [1] }).2 =
      Except.error (InitError.configurationError
        "Elements of `kernel_size_seq` should be > 0") ∧
    (mqcnnInit { mqcnnDefaults "D" 1 with
        kernel_size_seq := some [1, 3, 3] }).2 =
      Except.error (InitError.configurationError
        "Elements of `kernel_size_seq` should be > 0") :=
  ⟨(mqcnn_elementwise_validation "D" 1 (by decide) [0] [-1] [1]).1 (by decide),
   (mqcnn_elementwise_validation "D" 1 (by decide) [0] [-1] [1]).2.1 (by decide),
   (mqcnn_elementwise_validation "D" 1 (by decide) [0] [-1] [1]).2.2.1 (by decide),
   (mqcnn_elementwise_validation "D" 1 (by decide) [0] [-1] [1]).2.2.2⟩

/-- Claim C5: with a positive prediction length and all other arguments at
their defaults, a quantile sequence containing a value outside `[0, 1]`
makes the constructor body of either estimator fail with the quantile
message, while a sequence whose values all lie in `[0, 1]` inclusive makes
both succeed. -/
theorem mq_quantile_range_gate (freq : String) (pl : Int) (hpl : 0 < pl)
    (qs : List Rat) :
    ((¬ ∀ q ∈ qs, 0 ≤ q ∧ q ≤ 1) →
      (mqcnnInit { mqcnnDefaults freq pl with quantiles := some qs }).2 =
        Except.error (InitError.configurationError
          "Elements of `quantiles` should be >= 0 and <= 1") ∧
      (mqrnnInit { mqrnnDefaults freq pl with quantiles := some qs }).2 =
        Except.error (InitError.configurationError
          "Elements of `quantiles` should be >= 0 and <= 1")) ∧
    ((∀ q ∈ qs, 0 ≤ q ∧ q ≤ 1) →
      isOkB (mqcnnInit { mqcnnDefaults freq pl with
        quantiles := some qs }).2 = true ∧
      isOkB (mqrnnInit { mqrnnDefaults freq pl with
        quantiles := some qs }).2 = true) := by
  have hd : decide (0 < pl) = true := decide_eq_true hpl
  constructor
  · intro h
    constructor <;>
      simp [mqcnnInit, mqrnnInit, mqcnnPreChecks, mqrnnPreChecks,
        mqcnnDefaults, mqrnnDefaults, pyAssert, hd, h, noneOrAll,
        Except.bind, bind]
  · intro h
    constructor <;>
      simp [mqcnnInit, mqrnnInit, mqcnnPreChecks, mqrnnPreChecks,
        mqcnnDefaults, mqrnnDefaults, pyAssert, hd, eq_true h, noneOrAll,
        Except.bind, bind, isOkB, pyLast]

/-- Witness for C5 at `quantiles = [5]` (failure, both estimators) and the
boundary sequence `quantiles = [0, 1]` (success, both estimators). -/
theorem mq_quantile_range_gate_witness :
    ((mqcnnInit { mqcnnDefaults "D" 1 with quantiles := some [5] }).2 =
        Except.error (InitError.configurationError
          "Elements of `quantiles` should be >= 0 and <= 1") ∧
      (mqrnnInit { mqrnnDefaults "D" 1 with quantiles := some [5] }).2 =
        Except.error (InitError.configurationError
          "Elements of `quantiles` should be >= 0 and <= 1")) ∧
    (isOkB (mqcnnInit { mqcnnDefaults "D" 1 with
        quantiles := some [0, 1] }).2 = true ∧
      isOkB (mqrnnInit { mqrnnDefaults "D" 1 with
        quantiles := some [0, 1] }).2 = true) :=
  ⟨(mq_quantile_range_gate "D" 1 (by decide) [5]).1 (by decide),
   (mq_quantile_range_gate "D" 1 (by decide) [0, 1]).2 (by decide)⟩

/-- Claim C6: with every optional argument omitted, the constructor body
populates exactly the documented defaults — quantiles are the nine deciles,
`channels_seq = [30, 30, 30]`, `dilation_seq = [1, 3, 5]`,
`kernel_size_seq = [7, 3, 3]`, `decoder_mlp_dim_seq = [30]` — so the decoder
gets final dimension `30` and an empty intermediate hidden-layer sequence. -/
theorem mq_default_population (freq : String) (pl : Int) (hpl : 0 < pl) :
    (mqcnnInit (mqcnnDefaults freq pl)).2 =
      Except.ok
        { decoder_mlp_dim_seq := [30]
          channels_seq := [30, 30, 30]
          dilation_seq := [1, 3, 5]
          kernel_size_seq := [7, 3, 3]
          quantiles := [0.1, 0.2, 0.3, 0.4, 0.5, 0.6, 0.7, 0.8, 0.9]
          encoder :=
            { dilation_seq := [1, 3, 5]
              kernel_size_seq := [7, 3, 3]
              channels_seq := [30, 30, 30]
              use_residual := true
              use_static_feat := true
              use_dynamic_feat := true
              pfx := "encoder_" }
          decoder :=
            { dec_len := pl
              final_dim := 30
              hidden_dimension_sequence := []
              pfx := "decoder_" }
          quantile_output :=
            { quantiles := [0.1, 0.2, 0.3, 0.4, 0.5, 0.6, 0.7, 0.8, 0.9] }
          sampling := true } := by
  have hd : decide (0 < pl) = true := decide_eq_true hpl
  simp [mqcnnInit, mqcnnPreChecks, mqcnnDefaults, pyAssert, hd,
    noneOrAll, Except.bind, bind, pyLast]

/-- Witness for C6: the spec's scenario with `prediction_length = 12` and
all other arguments default. -/
theorem mq_default_population_witness :
    (mqcnnInit (mqcnnDefaults "D" 12)).2 =
      Except.ok
        { decoder_mlp_dim_seq := [30]
          channels_seq := [30, 30, 30]
          dilation_seq := [1, 3, 5]
          kernel_size_seq := [7, 3, 3]
          quantiles := [0.1, 0.2, 0.3, 0.4, 0.5, 0.6, 0.7, 0.8, 0.9]
          encoder :=
            { dilation_seq := [1, 3, 5]
              kernel_size_seq := [7, 3, 3]
              channels_seq := [30, 30, 30]
              use_residual := true
              use_static_feat := true
              use_dynamic_feat := true
              pfx := "encoder_" }
          decoder :=
            { dec_len := 12
              final_dim := 30
              hidden_dimension_sequence := []
              pfx := "decoder_" }
          quantile_output :=
            { quantiles := [0.1, 0.2, 0.3, 0.4, 0.5, 0.6, 0.7, 0.8, 0.9] }
          sampling := true } :=
  mq_default_population "D" 12 (by decide)

/-- Counterexample to claim C7: the seed `0` is supplied
(`seed = some 0`), construction succeeds, yet neither `np.random.seed` nor
`mx.random.seed` is invoked, because line 178 guards the seeding with the
Python truthiness test `if seed:` and `0` is falsy. -/
theorem mqcnn_seed_zero_counterexample :
    ({ mqcnnDefaults "D" 1 with seed := some 0 } : MQCNNArgs).seed = some 0 ∧
    isOkB (mqcnnInit { mqcnnDefaults "D" 1 with seed := some 0 }).2 = true ∧
    Event.seedNumpy 0 ∉
      (mqcnnInit { mqcnnDefaults "D" 1 with seed := some 0 }).1 ∧
    Event.seedMxnet 0 ∉
      (mqcnnInit { mqcnnDefaults "D" 1 with seed := some 0 }).1 := by
  decide

/-- Claim C7 as amended: whenever a NONZERO seed is supplied to the
`MQCNNEstimator` constructor, it is propagated to both the numpy RNG and the
MXNet RNG before any architecture object is built; when no seed is supplied,
or the seed is `0`, the process-wide random state is left unchanged. -/
theorem mqcnn_seed_propagation (freq : String) (pl : Int) (s : Int)
    (hpl : 0 < pl) (hs : s ≠ 0) :
    (mqcnnInit { mqcnnDefaults freq pl with seed := some s }).1 =
      [Event.seedNumpy s, Event.seedMxnet s, Event.buildEncoder,
       Event.buildDecoder, Event.buildQuantileOutput] ∧
    (mqcnnInit { mqcnnDefaults freq pl with seed := some 0 }).1 =
      [Event.buildEncoder, Event.buildDecoder, Event.buildQuantileOutput] ∧
    (mqcnnInit (mqcnnDefaults freq pl)).1 =
      [Event.buildEncoder, Event.buildDecoder, Event.buildQuantileOutput] := by
  have hd : decide (0 < pl) = true := decide_eq_true hpl
  refine ⟨?_, ?_, ?_⟩ <;>
    simp [mqcnnInit, mqcnnPreChecks, mqcnnDefaults, pyAssert, hd,
      noneOrAll, Except.bind, bind, pyLast, hs]

/-- Witness for the amended C7 at `seed = 7` and `prediction_length = 1`. -/
theorem mqcnn_seed_propagation_witness :
    (mqcnnInit { mqcnnDefaults "D" 1 with seed := some 7 }).1 =
      [Event.seedNumpy 7, Event.seedMxnet 7, Event.buildEncoder,
       Event.buildDecoder, Event.buildQuantileOutput] ∧
    (mqcnnInit { mqcnnDefaults "D" 1 with seed := some 0 }).1 =
      [Event.buildEncoder, Event.buildDecoder, Event.buildQuantileOutput] ∧
    (mqcnnInit (mqcnnDefaults "D" 1)).1 =
      [Event.buildEncoder, Event.buildDecoder, Event.buildQuantileOutput] :=
  mqcnn_seed_propagation "D" 1 7 (by decide) (by decide)

/-- Claim C8: `derive_auto_fields` reports `use_feat_dynamic_real` exactly
when the dynamic-real feature count is positive, `use_feat_static_cat`
exactly when the static-categorical collection is non-empty, and
`cardinality` as the distinct-value count per static categorical feature;
on a sample with zero dynamic-real features and two static categorical
features of 5 and 12 distinct values it returns
`{use_feat_dynamic_real: false, use_feat_static_cat: true,
cardinality: [5, 12]}`. -/
theorem derive_auto_fields_spec {α : Type} (stats : DatasetStatistics α) :
    ((derive_auto_fields stats).use_feat_dynamic_real = true ↔
      0 < stats.num_feat_dynamic_real) ∧
    ((derive_auto_fields stats).use_feat_static_cat = true ↔
      stats.feat_static_cat ≠ []) ∧
    (derive_auto_fields stats).cardinality =
      stats.feat_static_cat.map Finset.card ∧
    derive_auto_fields
        ({ num_feat_dynamic_real := 0,
           feat_static_cat := [Finset.range 5, Finset.range 12] } :
          DatasetStatistics Nat) =
      { use_feat_dynamic_real := false, use_feat_static_cat := true,
        cardinality := [5, 12] } := by
  refine ⟨by simp [derive_auto_fields], ?_, rfl, by decide⟩
  simp [derive_auto_fields, List.isEmpty_iff]

/-- Claim C9: whenever the constructor body of either estimator fails with a
configuration error, its event trace is empty — no RNG seeding and no
encoder, decoder or quantile-output construction happened, so no partial
construction is observable. -/
theorem mq_validation_fail_fast :
    (∀ (a : MQCNNArgs) (msg : String),
      (mqcnnInit a).2 = Except.error (InitError.configurationError msg) →
      (mqcnnInit a).1 = []) ∧
    (∀ (a : MQRNNArgs) (msg : String),
      (mqrnnInit a).2 = Except.error (InitError.configurationError msg) →
      (mqrnnInit a).1 = []) := by
  constructor
  · intro a msg h
    rcases mqcnnInit_shape a with ht | ⟨c, hc⟩ | hi
    · exact ht
    · rw [hc] at h; cases h
    · rw [hi] at h; cases h
  · intro a msg h
    rcases mqrnnInit_shape a with ht | ⟨c, hc⟩ | hi
    · exact ht
    · rw [hc] at h; cases h
    · rw [hi] at h; cases h

/-- Witness for C9 at the prediction-length failure of both estimators. -/
theorem mq_validation_fail_fast_witness :
    (mqcnnInit (mqcnnDefaults "D" 0)).1 = [] ∧
    (mqrnnInit (mqrnnDefaults "D" 0)).1 = [] :=
  ⟨mq_validation_fail_fast.1 (mqcnnDefaults "D" 0)
      ("Invalid prediction length: " ++ toString (0 : Int) ++ ".") (by decide),
   mq_validation_fail_fast.2 (mqrnnDefaults "D" 0)
      ("Invalid prediction length: " ++ toString (0 : Int) ++ ".") (by decide)⟩

/-- Claim C10: supplying `decoder_mlp_dim_seq = []` passes the
element-positivity validation vacuously, and the constructor body of either
estimator then fails with an `IndexError` (from `[][-1]` when taking the
decoder's final dimension), not with a configuration error. -/
theorem mq_empty_decoder_index_error (freq : String) (pl : Int)
    (hpl : 0 < pl) :
    noneOrAll (some ([] : List Int)) (fun d => decide (0 < d)) = true ∧
    (mqcnnInit { mqcnnDefaults freq pl with
        decoder_mlp_dim_seq := some [] }).2 =
      Except.error InitError.indexError ∧
    (mqrnnInit { mqrnnDefaults freq pl with
        decoder_mlp_dim_seq := some [] }).2 =
      Except.error InitError.indexError := by
  have hd : decide (0 < pl) = true := decide_eq_true hpl
  refine ⟨rfl, ?_, ?_⟩ <;>
    simp [mqcnnInit, mqrnnInit, mqcnnPreChecks, mqrnnPreChecks,
      mqcnnDefaults, mqrnnDefaults, pyAssert, hd, noneOrAll,
      Except.bind, bind, pyLast]

/-- Witness for C10 at `prediction_length = 1`. -/
theorem mq_empty_decoder_index_error_witness :
    noneOrAll (some ([] : List Int)) (fun d => decide (0 < d)) = true ∧
    (mqcnnInit { mqcnnDefaults "D" 1 with
        decoder_mlp_dim_seq := some [] }).2 =
      Except.error InitError.indexError ∧
    (mqrnnInit { mqrnnDefaults "D" 1 with
        decoder_mlp_dim_seq := some [] }).2 =
      Except.error InitError.indexError :=
  mq_empty_decoder_index_error "D" 1 (by decide)

end MQDNN
